import Mathlib

/-!
Verification of the q2boot VM command-building, validation and
architecture-detection core.

The Go sources are shallowly embedded: ambient operating-system state
(file existence, temporary-file creation, binary lookup, port binding,
the virt-cat pipeline output) is passed explicitly through an `Env`
record, and every embedded function is a pure, executable Lean
definition mirroring its Go counterpart statement by statement.
-/

namespace Q2Boot

/-! ### Decimal rendering, mirroring Go fmt.Sprintf with the %d verb -/

/-- Digit accumulator: pushes the decimal digits of `n` (least significant
first into `acc`, so most significant ends up at the head). The fuel
argument only bounds the recursion depth; `n + 1` is always enough. -/
def natDigitsAux : Nat → Nat → List Char → List Char
  | 0, _, acc => acc
  | fuel + 1, n, acc =>
    let acc1 := Char.ofNat (48 + n % 10) :: acc
    if n / 10 = 0 then acc1 else natDigitsAux fuel (n / 10) acc1

/-- Decimal rendering of a natural number, as Go fmt.Sprintf renders a
non-negative integer with the %d verb. -/
def natToDec (n : Nat) : String := ⟨natDigitsAux (n + 1) n []⟩

/-- Decimal rendering of an integer, as Go fmt.Sprintf with the %d verb. -/
def intToDec (i : Int) : String :=
  if i < 0 then "-" ++ natToDec i.natAbs else natToDec i.natAbs

/-! ### String facts used to separate fixed flags from data-dependent
arguments -/

theorem string_eq_of_data_eq {s t : String} (h : s.data = t.data) : s = t := by
  cases s
  cases t
  exact congrArg String.mk h

theorem str_ne_of_length_ne {s t : String} (h : s.length ≠ t.length) : s ≠ t :=
  fun e => h (by rw [e])

/-- A string with a long literal prefix differs from any short string. -/
theorem ne_of_prefix_long {a t : String} (b : String) (h : t.length < a.length) :
    a ++ b ≠ t := by
  apply str_ne_of_length_ne
  rw [String.length_append]
  omega

/-- A string wrapped between two literals whose combined length exceeds the
target differs from the target. -/
theorem ne_of_wrap_long {a c t : String} (b : String)
    (h : t.length < a.length + c.length) : a ++ b ++ c ≠ t := by
  apply str_ne_of_length_ne
  rw [String.length_append, String.length_append]
  omega

theorem natDigitsAux_length_mono (fuel : Nat) :
    ∀ (n : Nat) (acc : List Char), acc.length ≤ (natDigitsAux fuel n acc).length := by
  induction fuel with
  | zero => intro n acc; simp [natDigitsAux]
  | succ fuel ih =>
    intro n acc
    simp only [natDigitsAux]
    split
    · simp
    · exact le_trans (by simp) (ih (n / 10) _)

theorem natDigitsAux_digits (fuel : Nat) :
    ∀ (n : Nat) (acc : List Char), (∀ c ∈ acc, c.isDigit = true) →
      ∀ c ∈ natDigitsAux fuel n acc, c.isDigit = true := by
  induction fuel with
  | zero => intro n acc hacc c hc; exact hacc c (by simpa [natDigitsAux] using hc)
  | succ fuel ih =>
    intro n acc hacc c hc
    have hdig : (Char.ofNat (48 + n % 10)).isDigit = true := by
      have h10 : n % 10 < 10 := Nat.mod_lt _ (by omega)
      have : n % 10 = 0 ∨ n % 10 = 1 ∨ n % 10 = 2 ∨ n % 10 = 3 ∨ n % 10 = 4 ∨
          n % 10 = 5 ∨ n % 10 = 6 ∨ n % 10 = 7 ∨ n % 10 = 8 ∨ n % 10 = 9 := by omega
      rcases this with h | h | h | h | h | h | h | h | h | h <;> rw [h] <;> decide
    have hacc1 : ∀ d ∈ Char.ofNat (48 + n % 10) :: acc, d.isDigit = true := by
      intro d hd
      rcases List.mem_cons.mp hd with h | h
      · rw [h]; exact hdig
      · exact hacc d h
    simp only [natDigitsAux] at hc
    split at hc
    · exact hacc1 c hc
    · exact ih (n / 10) _ hacc1 c hc

theorem natToDec_digits (n : Nat) : ∀ c ∈ (natToDec n).data, c.isDigit = true :=
  natDigitsAux_digits (n + 1) n [] (by intro c hc; cases hc)

theorem natToDec_ne_nil (n : Nat) : (natToDec n).data ≠ [] := by
  show natDigitsAux (n + 1) n [] ≠ []
  simp only [natDigitsAux]
  split
  · simp
  · intro h
    have hm := natDigitsAux_length_mono n (n / 10) [Char.ofNat (48 + n % 10)]
    rw [h] at hm
    simp at hm

/-- The Go-style decimal rendering of an integer never equals a string that
contains a non-digit character in its tail as well as somewhere overall
(such as a QEMU flag like a dash followed by a word). -/
theorem intToDec_ne (i : Int) (t : String)
    (h1 : t.data.any (fun c => !c.isDigit) = true)
    (h2 : t.data.tail.any (fun c => !c.isDigit) = true) : intToDec i ≠ t := by
  intro he
  unfold intToDec at he
  split at he
  · have hd : ('-' :: (natToDec i.natAbs).data) = t.data := by
      have h3 := congrArg String.data he
      rwa [String.data_append] at h3
    have htail : t.data.tail = (natToDec i.natAbs).data := by rw [← hd]; rfl
    rw [htail] at h2
    rcases List.any_eq_true.mp h2 with ⟨c, hc, hnd⟩
    have := natToDec_digits i.natAbs c hc
    simp [this] at hnd
  · have hd := congrArg String.data he
    rcases List.any_eq_true.mp h1 with ⟨c, hc, hnd⟩
    have hmem : c ∈ (natToDec i.natAbs).data := by rw [hd]; exact hc
    have := natToDec_digits i.natAbs c hmem
    simp [this] at hnd

/-- Appending the literal G (the RAM-size suffix) never produces a string
whose last character is not G. -/
theorem append_G_ne (s : String) {t : String}
    (h : t.data.getLast? ≠ some 'G') : s ++ "G" ≠ t := by
  intro he
  apply h
  have hd := congrArg String.data he
  rw [String.data_append] at hd
  rw [← hd]
  exact List.getLast?_concat _

/-! ### Go strings helpers (strings.Contains, strings.ToLower) -/

/-- Go strings.ToLower, restricted to the byte-sized characters that occur
in the inputs of the detector. -/
def toLowerStr (s : String) : String := ⟨s.data.map Char.toLower⟩

/-- Infix search over character lists: true when pat occurs contiguously
inside l. -/
def hasInfixAux (pat : List Char) : List Char → Bool
  | [] => pat.isEmpty
  | c :: t => List.isPrefixOf pat (c :: t) || hasInfixAux pat t

/-- Go strings.Contains. -/
def strContains (s pat : String) : Bool := hasInfixAux pat.data s.data

/-! ### Data model -/

/-- config.VMConfig (internal/config/config.go, current snapshot with
monitor port, serial log path and extra QEMU arguments). Go int fields
become Int, uint16 ports become Nat. -/
structure VMConfig where
  arch : String
  cpu : Int
  ramGb : Int
  sshPort : Nat
  monitorPort : Nat
  logFile : String
  serialLogPath : String
  writeMode : Bool
  graphical : Bool
  confirm : Bool
  diskPath : String
  extraQemuArgs : List String

/-- vm.BaseVM (unnamed/part_019): the state shared by all VM
implementations. -/
structure BaseVM where
  DiskPath : String
  CPU : Int
  RAM : Int
  Graphical : Bool
  NoSnapshot : Bool
  Confirm : Bool
  SSHPort : Nat
  MonitorPort : Nat
  LogFile : String

/-- vm.NewBaseVM (unnamed/part_019): defaults; DiskPath keeps the Go zero
value. -/
def newBaseVM : BaseVM :=
  { DiskPath := "", CPU := 2, RAM := 2, Graphical := false, NoSnapshot := false,
    Confirm := false, SSHPort := 2222, MonitorPort := 0, LogFile := "q2boot.log" }

/-- BaseVM.Configure (unnamed/part_019): copies the configuration into the
VM state; WriteMode becomes NoSnapshot; DiskPath is only overwritten when
non-empty. -/
def configure (v : BaseVM) (cfg : VMConfig) : BaseVM :=
  { v with
    CPU := cfg.cpu
    RAM := cfg.ramGb
    SSHPort := cfg.sshPort
    MonitorPort := cfg.monitorPort
    LogFile := cfg.logFile
    Graphical := cfg.graphical
    NoSnapshot := cfg.writeMode
    Confirm := cfg.confirm
    DiskPath := if cfg.diskPath ≠ "" then cfg.diskPath else v.DiskPath }

/-- The VM state a launch builds against: NewBaseVM configured with the
finalized VMConfig, as runQ2BootE does via CreateVM and Configure. -/
def vmFor (cfg : VMConfig) : BaseVM := configure newBaseVM cfg

/-- Ambient operating-system state the Go code consults: file existence
(os.Stat), the name os.CreateTemp hands out, executable lookup
(exec.LookPath), port bindability (net.Listen), and the textual report of
the virt-cat pipeline (none when virt-cat is unavailable or either chained
process failed). -/
structure Env where
  fileExists : String → Bool
  tempName : Option String
  binaryFound : String → Bool
  portFree : Nat → Bool
  virtOutput : Option String

/-- The vm.VM capability set of unnamed/part_019, with each getter already
evaluated at the VM state it was built against: each field holds the list
the corresponding Get...Args method returns. -/
structure GoVM where
  getArchArgs : List String
  getDiskArgs : List String
  getNetworkArgs : List String
  getGraphicalArgs : List String
  getNonGraphicalDisplayArgs : List String

/-! ### Architecture variants -/

/-- X86_64VM getters (unnamed/part_016, current snapshot): q35 machine with
KVM and host CPU, virtio-blk with multiqueue, virtio-net with multiqueue,
GTK GL display, curses headless display. -/
def mkX86_64VM (v : BaseVM) (_env : Env) : GoVM :=
  { getArchArgs := ["-M", "q35", "-enable-kvm", "-cpu", "host"]
    getDiskArgs :=
      ["-drive",
       "file=" ++ v.DiskPath ++ ",if=none,id=disk0,cache=none,aio=native,discard=unmap",
       "-device",
       "virtio-blk-pci,drive=disk0,num-queues=" ++ intToDec v.CPU]
    getNetworkArgs :=
      ["-netdev",
       "user,id=net0,hostfwd=tcp::" ++ natToDec v.SSHPort ++ "-:22",
       "-device",
       "virtio-net-pci,netdev=net0,mq=on"]
    getGraphicalArgs := ["-device", "virtio-vga-gl", "-display", "gtk,gl=on"]
    getNonGraphicalDisplayArgs := ["-display", "curses"] }

/-- The known aarch64 UEFI firmware code paths (unnamed/part_017). -/
def aavmfCodePaths : List String :=
  ["/usr/share/qemu/aavmf-aarch64-code.bin", "/usr/share/AAVMF/AAVMF_CODE.fd"]

/-- NewAARCH64VM firmware scan (unnamed/part_017): the first listed path
that exists, or the empty string. -/
def aarch64FirmwarePath (env : Env) : String :=
  (aavmfCodePaths.find? env.fileExists).getD ""

/-- AARCH64VM.GetArchArgs (unnamed/part_017 lines 43-71): virt machine and
max CPU; when a firmware path is set and its os.Stat succeeds and
os.CreateTemp succeeds, two pflash drives are appended - the read-only
code image and the freshly created temporary variable store whose name
os.CreateTemp chose. -/
def aarch64ArchArgs (firmwarePath : String) (env : Env) : List String :=
  let args := ["-M", "virt", "-cpu", "max"]
  if firmwarePath ≠ "" then
    if env.fileExists firmwarePath then
      match env.tempName with
      | some varsFile =>
          args ++
            ["-drive", "if=pflash,format=raw,readonly=on,file=" ++ firmwarePath,
             "-drive", "if=pflash,format=raw,file=" ++ varsFile]
      | none => args
    else args
  else args

/-- AARCH64VM.GetNonGraphicalDisplayArgs (unnamed/part_017): nographic,
with the serial console multiplexed onto stdio only when no log file is
set. -/
def aarch64NonGraphicalDisplayArgs (v : BaseVM) : List String :=
  if v.LogFile ≠ "" then ["-nographic"] else ["-nographic", "-serial", "mon:stdio"]

/-- AARCH64VM getters (unnamed/part_017, current snapshot). -/
def mkAARCH64VM (v : BaseVM) (env : Env) : GoVM :=
  { getArchArgs := aarch64ArchArgs (aarch64FirmwarePath env) env
    getDiskArgs :=
      ["-drive",
       "file=" ++ v.DiskPath ++ ",if=none,id=disk0,cache=none,aio=native,discard=unmap",
       "-device",
       "virtio-blk-pci,drive=disk0,num-queues=" ++ intToDec v.CPU]
    getNetworkArgs :=
      ["-netdev",
       "user,id=net0,hostfwd=tcp::" ++ natToDec v.SSHPort ++ "-:22",
       "-device",
       "virtio-net-pci,netdev=net0,mq=on"]
    getGraphicalArgs := ["-device", "virtio-vga-gl", "-display", "gtk,gl=on"]
    getNonGraphicalDisplayArgs := aarch64NonGraphicalDisplayArgs v }

/-- PPC64LEVM getters (internal/vm/ppc64le.go, current snapshot): pseries
platform with POWER10, virtio-blk with bootindex and multiqueue,
virtio-net with multiqueue; graphical mode degrades to an interactive
serial console; nographic headless mode. -/
def mkPPC64LEVM (v : BaseVM) (_env : Env) : GoVM :=
  { getArchArgs := ["-M", "pseries", "-cpu", "power10"]
    getDiskArgs :=
      ["-drive",
       "file=" ++ v.DiskPath ++ ",id=disk0,if=none,cache=none,aio=native,discard=unmap",
       "-device",
       "virtio-blk-pci,drive=disk0,id=dr0,bootindex=1,num-queues=" ++ intToDec v.CPU]
    getNetworkArgs :=
      ["-netdev",
       "user,id=net0,hostfwd=tcp::" ++ natToDec v.SSHPort ++ "-:22",
       "-device",
       "virtio-net-pci,netdev=net0,mq=on"]
    getGraphicalArgs := ["-nographic", "-serial", "stdio"]
    getNonGraphicalDisplayArgs := ["-nographic"] }

/-- Modelled from the spec: the s390x non-graphical display method for the
current vm.VM interface is not among the provided sources (only an older
snapshot of s390x.go is); spec section 4.4 specifies a raw serial console
for s390x headless mode, as for ppc64le. -/
def s390xNonGraphicalDisplayArgs : List String := ["-nographic"]

/-- S390XVM getters (internal/vm/s390x.go): CCW-bus virtio machine with
max CPU, virtio-blk-ccw disk, virtio-net-ccw NIC; graphical mode is a
terminal session multiplexing the serial console, with the monitor
disabled inside the variant arguments themselves. -/
def mkS390XVM (v : BaseVM) (_env : Env) : GoVM :=
  { getArchArgs := ["-machine", "s390-ccw-virtio", "-cpu", "max"]
    getDiskArgs :=
      ["-drive",
       "file=" ++ v.DiskPath ++ ",id=disk1,if=none,cache=unsafe,discard=unmap",
       "-device",
       "virtio-blk-ccw,drive=disk1,id=dr1,bootindex=1"]
    getNetworkArgs :=
      ["-netdev",
       "user,id=net1,hostfwd=tcp::" ++ natToDec v.SSHPort ++ "-:22",
       "-device",
       "virtio-net-ccw,netdev=net1"]
    getGraphicalArgs := ["-nographic", "-serial", "stdio", "-monitor", "none"]
    getNonGraphicalDisplayArgs := s390xNonGraphicalDisplayArgs }

/-! ### Shared command builder (unnamed/part_019 lines 195-244) -/

/-- The telnet monitor specification fmt.Sprintf produces for a monitor
port. -/
def telnetMonitorSpec (port : Nat) : String :=
  "telnet:127.0.0.1:" ++ natToDec port ++ ",server,nowait"

/-- BaseVM.buildArgs (unnamed/part_019 lines 195-244), translated
accumulator step for accumulator step. -/
def buildArgs (v : BaseVM) (vm : GoVM) : List String :=
  let args := vm.getArchArgs
  let args := args ++ ["-smp", intToDec v.CPU]
  let args := args ++ ["-m", intToDec v.RAM ++ "G"]
  let args := args ++ vm.getDiskArgs
  let args := args ++ vm.getNetworkArgs
  let args := args ++ ["-audiodev", "none,id=snd0"]
  let args :=
    if v.Graphical then
      let graphicalArgs := vm.getGraphicalArgs
      let args := args ++ graphicalArgs
      if graphicalArgs.contains "-nographic" then args ++ ["-monitor", "none"]
      else args
    else
      let args := args ++ vm.getNonGraphicalDisplayArgs
      if !v.NoSnapshot then args ++ ["-snapshot"] else args
  if v.MonitorPort > 0 then
    args ++ ["-monitor", telnetMonitorSpec v.MonitorPort]
  else if !v.Graphical then
    if !(args.contains "-monitor") then args ++ ["-monitor", "none"] else args
  else
    args

/-- Steps 1 to 5 of the assembly order: variant machine/CPU arguments,
then -smp and -m, then disk, then network, then the disabled audio
device. -/
def commonArgs (v : BaseVM) (vm : GoVM) : List String :=
  vm.getArchArgs
    ++ ["-smp", intToDec v.CPU, "-m", intToDec v.RAM ++ "G"]
    ++ vm.getDiskArgs ++ vm.getNetworkArgs
    ++ ["-audiodev", "none,id=snd0"]

/-- Step 6, the display branch: graphical arguments (with the monitor
suppressed when they are a nographic serial fallback), or the
non-graphical display arguments plus the default snapshot flag. -/
def displayArgs (v : BaseVM) (vm : GoVM) : List String :=
  if v.Graphical then
    vm.getGraphicalArgs ++
      (if vm.getGraphicalArgs.contains "-nographic" then ["-monitor", "none"] else [])
  else
    vm.getNonGraphicalDisplayArgs ++ (if !v.NoSnapshot then ["-snapshot"] else [])

/-- Step 7, the monitor configuration, as a function of the arguments
assembled so far. -/
def monitorArgs (v : BaseVM) (argsSoFar : List String) : List String :=
  if v.MonitorPort > 0 then ["-monitor", telnetMonitorSpec v.MonitorPort]
  else if !v.Graphical then
    if !(argsSoFar.contains "-monitor") then ["-monitor", "none"] else []
  else []

/-- Adjacent-pair scanner: true when some element equal to a is
immediately followed by an element equal to b. -/
def hasAdjPair (a b : String) : List String → Bool
  | x :: y :: rest => (x == a && y == b) || hasAdjPair a b (y :: rest)
  | _ => false

/-! ### The data-dependent argument strings never collide with the fixed
flags the builder inspects -/

@[simp] theorem snap_ne_decInt (i : Int) : ("-snapshot" = intToDec i) ↔ False :=
  iff_false_intro fun h => intToDec_ne i ("-snapshot") (by decide) (by decide) h.symm

@[simp] theorem mon_ne_decInt (i : Int) : ("-monitor" = intToDec i) ↔ False :=
  iff_false_intro fun h => intToDec_ne i ("-monitor") (by decide) (by decide) h.symm

@[simp] theorem snap_ne_ramStr (i : Int) : ("-snapshot" = intToDec i ++ "G") ↔ False :=
  iff_false_intro fun h => append_G_ne (intToDec i) (by decide) h.symm

@[simp] theorem mon_ne_ramStr (i : Int) : ("-monitor" = intToDec i ++ "G") ↔ False :=
  iff_false_intro fun h => append_G_ne (intToDec i) (by decide) h.symm

@[simp] theorem snap_ne_diskA (d : String) :
    ("-snapshot" = "file=" ++ d ++ ",if=none,id=disk0,cache=none,aio=native,discard=unmap")
      ↔ False :=
  iff_false_intro fun h => ne_of_wrap_long d (by decide) h.symm

@[simp] theorem mon_ne_diskA (d : String) :
    ("-monitor" = "file=" ++ d ++ ",if=none,id=disk0,cache=none,aio=native,discard=unmap")
      ↔ False :=
  iff_false_intro fun h => ne_of_wrap_long d (by decide) h.symm

@[simp] theorem snap_ne_diskB (d : String) :
    ("-snapshot" = "file=" ++ d ++ ",id=disk0,if=none,cache=none,aio=native,discard=unmap")
      ↔ False :=
  iff_false_intro fun h => ne_of_wrap_long d (by decide) h.symm

@[simp] theorem mon_ne_diskB (d : String) :
    ("-monitor" = "file=" ++ d ++ ",id=disk0,if=none,cache=none,aio=native,discard=unmap")
      ↔ False :=
  iff_false_intro fun h => ne_of_wrap_long d (by decide) h.symm

@[simp] theorem snap_ne_diskC (d : String) :
    ("-snapshot" = "file=" ++ d ++ ",id=disk1,if=none,cache=unsafe,discard=unmap") ↔ False :=
  iff_false_intro fun h => ne_of_wrap_long d (by decide) h.symm

@[simp] theorem mon_ne_diskC (d : String) :
    ("-monitor" = "file=" ++ d ++ ",id=disk1,if=none,cache=unsafe,discard=unmap") ↔ False :=
  iff_false_intro fun h => ne_of_wrap_long d (by decide) h.symm

@[simp] theorem snap_ne_blkDevA (c : String) :
    ("-snapshot" = "virtio-blk-pci,drive=disk0,num-queues=" ++ c) ↔ False :=
  iff_false_intro fun h => ne_of_prefix_long c (by decide) h.symm

@[simp] theorem mon_ne_blkDevA (c : String) :
    ("-monitor" = "virtio-blk-pci,drive=disk0,num-queues=" ++ c) ↔ False :=
  iff_false_intro fun h => ne_of_prefix_long c (by decide) h.symm

@[simp] theorem snap_ne_blkDevB (c : String) :
    ("-snapshot" = "virtio-blk-pci,drive=disk0,id=dr0,bootindex=1,num-queues=" ++ c)
      ↔ False :=
  iff_false_intro fun h => ne_of_prefix_long c (by decide) h.symm

@[simp] theorem mon_ne_blkDevB (c : String) :
    ("-monitor" = "virtio-blk-pci,drive=disk0,id=dr0,bootindex=1,num-queues=" ++ c)
      ↔ False :=
  iff_false_intro fun h => ne_of_prefix_long c (by decide) h.symm

@[simp] theorem snap_ne_netA (p : String) :
    ("-snapshot" = "user,id=net0,hostfwd=tcp::" ++ p ++ "-:22") ↔ False :=
  iff_false_intro fun h => ne_of_wrap_long p (by decide) h.symm

@[simp] theorem mon_ne_netA (p : String) :
    ("-monitor" = "user,id=net0,hostfwd=tcp::" ++ p ++ "-:22") ↔ False :=
  iff_false_intro fun h => ne_of_wrap_long p (by decide) h.symm

@[simp] theorem snap_ne_netB (p : String) :
    ("-snapshot" = "user,id=net1,hostfwd=tcp::" ++ p ++ "-:22") ↔ False :=
  iff_false_intro fun h => ne_of_wrap_long p (by decide) h.symm

@[simp] theorem mon_ne_netB (p : String) :
    ("-monitor" = "user,id=net1,hostfwd=tcp::" ++ p ++ "-:22") ↔ False :=
  iff_false_intro fun h => ne_of_wrap_long p (by decide) h.symm

@[simp] theorem snap_ne_pflashCode (f : String) :
    ("-snapshot" = "if=pflash,format=raw,readonly=on,file=" ++ f) ↔ False :=
  iff_false_intro fun h => ne_of_prefix_long f (by decide) h.symm

@[simp] theorem mon_ne_pflashCode (f : String) :
    ("-monitor" = "if=pflash,format=raw,readonly=on,file=" ++ f) ↔ False :=
  iff_false_intro fun h => ne_of_prefix_long f (by decide) h.symm

@[simp] theorem snap_ne_pflashVars (f : String) :
    ("-snapshot" = "if=pflash,format=raw,file=" ++ f) ↔ False :=
  iff_false_intro fun h => ne_of_prefix_long f (by decide) h.symm

@[simp] theorem mon_ne_pflashVars (f : String) :
    ("-monitor" = "if=pflash,format=raw,file=" ++ f) ↔ False :=
  iff_false_intro fun h => ne_of_prefix_long f (by decide) h.symm

@[simp] theorem snap_ne_telnet (p : String) :
    ("-snapshot" = "telnet:127.0.0.1:" ++ p ++ ",server,nowait") ↔ False :=
  iff_false_intro fun h => ne_of_wrap_long p (by decide) h.symm

@[simp] theorem mon_ne_telnet (p : String) :
    ("-monitor" = "telnet:127.0.0.1:" ++ p ++ ",server,nowait") ↔ False :=
  iff_false_intro fun h => ne_of_wrap_long p (by decide) h.symm

theorem telnet_ne_stdio (p : String) :
    ("telnet:127.0.0.1:" ++ p ++ ",server,nowait" == "stdio") = false := by
  rw [beq_eq_false_iff_ne]
  exact ne_of_wrap_long p (by decide)

/-! ### Decomposition of the builder into the assembly-order segments -/

/-- The builder equals the concatenation of its three ordered segments. -/
theorem buildArgs_decomp (v : BaseVM) (vm : GoVM) :
    buildArgs v vm =
      commonArgs v vm ++ displayArgs v vm
        ++ monitorArgs v (commonArgs v vm ++ displayArgs v vm) := by
  unfold buildArgs commonArgs displayArgs monitorArgs
  by_cases hg : v.Graphical
  · by_cases hn : "-nographic" ∈ vm.getGraphicalArgs <;>
      by_cases hm : v.MonitorPort > 0 <;>
        simp [hg, hn, hm, List.append_assoc]
  · by_cases hs : v.NoSnapshot <;> by_cases hm : v.MonitorPort > 0 <;>
      simp [hg, hs, hm, List.append_assoc] <;>
      split <;> simp [List.append_assoc]

theorem contains_eq_false {l : List String} {a : String} (h : a ∉ l) :
    l.contains a = false := by simpa using h

theorem displayArgs_nonGraphical (v : BaseVM) (vm : GoVM)
    (hg : v.Graphical = false) (hs : v.NoSnapshot = false) :
    displayArgs v vm = vm.getNonGraphicalDisplayArgs ++ ["-snapshot"] := by
  simp [displayArgs, hg, hs]

theorem displayArgs_graphical_fallback (v : BaseVM) (vm : GoVM)
    (hg : v.Graphical = true) (hn : "-nographic" ∈ vm.getGraphicalArgs) :
    displayArgs v vm = vm.getGraphicalArgs ++ ["-monitor", "none"] := by
  simp [displayArgs, hg, hn]

theorem monitorArgs_port (v : BaseVM) (l : List String) (hm : v.MonitorPort > 0) :
    monitorArgs v l = ["-monitor", telnetMonitorSpec v.MonitorPort] := by
  simp [monitorArgs, hm]

theorem monitorArgs_disabled (v : BaseVM) (l : List String)
    (hg : v.Graphical = false) (hm : v.MonitorPort = 0) (h : "-monitor" ∉ l) :
    monitorArgs v l = ["-monitor", "none"] := by
  simp [monitorArgs, hg, hm, contains_eq_false h, h]

/-! ### The snapshot flag never hides inside a variant fragment -/

theorem snap_not_in_monitorArgs (v : BaseVM) (l : List String) :
    "-snapshot" ∉ monitorArgs v l := by
  unfold monitorArgs
  split
  · simp [telnetMonitorSpec]
  · split
    · split <;> simp
    · simp

theorem snap_not_in_aarch64Arch (fw : String) (env : Env) :
    "-snapshot" ∉ aarch64ArchArgs fw env := by
  unfold aarch64ArchArgs
  split
  · split
    · split <;> simp
    · simp
  · simp

theorem mon_not_in_aarch64Arch (fw : String) (env : Env) :
    "-monitor" ∉ aarch64ArchArgs fw env := by
  unfold aarch64ArchArgs
  split
  · split
    · split <;> simp
    · simp
  · simp

theorem snap_not_in_common_x86 (v : BaseVM) (e : Env) :
    "-snapshot" ∉ commonArgs v (mkX86_64VM v e) := by
  simp [commonArgs, mkX86_64VM]

theorem snap_not_in_common_aarch64 (v : BaseVM) (e : Env) :
    "-snapshot" ∉ commonArgs v (mkAARCH64VM v e) := by
  have h := snap_not_in_aarch64Arch (aarch64FirmwarePath e) e
  simp [commonArgs, mkAARCH64VM]
  simpa using h

theorem snap_not_in_common_ppc (v : BaseVM) (e : Env) :
    "-snapshot" ∉ commonArgs v (mkPPC64LEVM v e) := by
  simp [commonArgs, mkPPC64LEVM]

theorem snap_not_in_common_s390x (v : BaseVM) (e : Env) :
    "-snapshot" ∉ commonArgs v (mkS390XVM v e) := by
  simp [commonArgs, mkS390XVM]

theorem snap_not_in_buildArgs (v : BaseVM) (vm : GoVM) (hs : v.NoSnapshot = true)
    (h1 : "-snapshot" ∉ commonArgs v vm)
    (h2 : "-snapshot" ∉ vm.getGraphicalArgs)
    (h3 : "-snapshot" ∉ vm.getNonGraphicalDisplayArgs) :
    "-snapshot" ∉ buildArgs v vm := by
  rw [buildArgs_decomp]
  intro hmem
  rcases List.mem_append.mp hmem with hmem | hmem
  · rcases List.mem_append.mp hmem with hmem | hmem
    · exact h1 hmem
    · unfold displayArgs at hmem
      split at hmem
      · rcases List.mem_append.mp hmem with hmem | hmem
        · exact h2 hmem
        · split at hmem <;> simp at hmem
      · rcases List.mem_append.mp hmem with hmem | hmem
        · exact h3 hmem
        · rw [hs] at hmem
          simp at hmem
  · exact snap_not_in_monitorArgs v _ hmem

/-! ### The monitor flag never hides inside the fragments assembled before
the monitor step -/

theorem mon_not_in_common_x86 (v : BaseVM) (e : Env) :
    "-monitor" ∉ commonArgs v (mkX86_64VM v e) := by
  simp [commonArgs, mkX86_64VM]

theorem mon_not_in_common_aarch64 (v : BaseVM) (e : Env) :
    "-monitor" ∉ commonArgs v (mkAARCH64VM v e) := by
  have h := mon_not_in_aarch64Arch (aarch64FirmwarePath e) e
  simp [commonArgs, mkAARCH64VM]
  simpa using h

theorem mon_not_in_common_ppc (v : BaseVM) (e : Env) :
    "-monitor" ∉ commonArgs v (mkPPC64LEVM v e) := by
  simp [commonArgs, mkPPC64LEVM]

theorem mon_not_in_common_s390x (v : BaseVM) (e : Env) :
    "-monitor" ∉ commonArgs v (mkS390XVM v e) := by
  simp [commonArgs, mkS390XVM]

theorem mon_not_in_display_nongraph (v : BaseVM) (vm : GoVM)
    (hg : v.Graphical = false) (h3 : "-monitor" ∉ vm.getNonGraphicalDisplayArgs) :
    "-monitor" ∉ displayArgs v vm := by
  unfold displayArgs
  rw [if_neg (by simp [hg])]
  intro hmem
  rcases List.mem_append.mp hmem with hmem | hmem
  · exact h3 hmem
  · split at hmem <;> simp at hmem

theorem mon_not_in_nongraph_aarch64 (v : BaseVM) (e : Env) :
    "-monitor" ∉ (mkAARCH64VM v e).getNonGraphicalDisplayArgs := by
  show "-monitor" ∉ aarch64NonGraphicalDisplayArgs v
  unfold aarch64NonGraphicalDisplayArgs
  split <;> simp

/-! ### Shared probe inputs used by the concrete witnesses -/

/-- A benign ambient environment: every file exists, every binary is on
the path, every port is free, virt-cat is unavailable, and os.CreateTemp
would hand out a fixed name. -/
def probeEnv : Env :=
  { fileExists := fun _ => true, tempName := some ("/tmp/q2boot-aavmf-vars-1.fd"),
    binaryFound := fun _ => true, portFree := fun _ => true, virtOutput := none }

/-- The spec scenario configuration: x86_64, 2 CPUs, 2 GB, SSH 2222,
non-graphical, snapshot mode. -/
def scenarioCfg : VMConfig :=
  { arch := "x86_64", cpu := 2, ramGb := 2, sshPort := 2222, monitorPort := 0,
    logFile := "q2boot.log", serialLogPath := "", writeMode := false,
    graphical := false, confirm := false, diskPath := "/tmp/disk.img",
    extraQemuArgs := [] }

/-! ### Claim theorems -/

/-- C1: for every VM state and every architecture variant capability set,
BaseVM.buildArgs produces exactly the variant machine/CPU arguments, then
-smp and -m, then the disk arguments, then the network arguments, then
the disabled audio device, then the display branch (graphical arguments,
with the stdio monitor suppressed on a nographic fallback, or else the
non-graphical display arguments plus the default snapshot flag), then the
monitor-configuration arguments computed from everything before them - in
this order, with nothing omitted, duplicated or reordered. -/
theorem buildArgs_assembly_order (v : BaseVM) (vm : GoVM) :
    buildArgs v vm =
      commonArgs v vm ++ displayArgs v vm
        ++ monitorArgs v (commonArgs v vm ++ displayArgs v vm) :=
  buildArgs_decomp v vm

/-- C2: for every configuration with writeMode and graphical both unset,
the built arguments contain the snapshot flag immediately after the
variant non-graphical display arguments; and for every configuration with
writeMode set, the built arguments of each of the four architecture
variants never contain the snapshot flag. -/
theorem snapshot_default_law (cfg : VMConfig) (env : Env) :
    (cfg.writeMode = false → cfg.graphical = false → ∀ vm : GoVM,
      buildArgs (vmFor cfg) vm =
        commonArgs (vmFor cfg) vm ++ vm.getNonGraphicalDisplayArgs ++ ["-snapshot"]
          ++ monitorArgs (vmFor cfg)
              (commonArgs (vmFor cfg) vm ++ vm.getNonGraphicalDisplayArgs
                ++ ["-snapshot"])) ∧
    (cfg.writeMode = true →
      "-snapshot" ∉ buildArgs (vmFor cfg) (mkX86_64VM (vmFor cfg) env) ∧
      "-snapshot" ∉ buildArgs (vmFor cfg) (mkAARCH64VM (vmFor cfg) env) ∧
      "-snapshot" ∉ buildArgs (vmFor cfg) (mkPPC64LEVM (vmFor cfg) env) ∧
      "-snapshot" ∉ buildArgs (vmFor cfg) (mkS390XVM (vmFor cfg) env)) := by
  constructor
  · intro hw hg vm
    have hG : (vmFor cfg).Graphical = false := hg
    have hS : (vmFor cfg).NoSnapshot = false := hw
    rw [buildArgs_decomp, displayArgs_nonGraphical _ _ hG hS]
    simp [List.append_assoc]
  · intro hw
    have hS : (vmFor cfg).NoSnapshot = true := hw
    refine ⟨?_, ?_, ?_, ?_⟩
    · exact snap_not_in_buildArgs _ _ hS (snap_not_in_common_x86 _ _)
        (by simp [mkX86_64VM]) (by simp [mkX86_64VM])
    · exact snap_not_in_buildArgs _ _ hS (snap_not_in_common_aarch64 _ _)
        (by simp [mkAARCH64VM])
        (by show "-snapshot" ∉ aarch64NonGraphicalDisplayArgs (vmFor cfg)
            unfold aarch64NonGraphicalDisplayArgs
            split <;> simp)
    · exact snap_not_in_buildArgs _ _ hS (snap_not_in_common_ppc _ _)
        (by simp [mkPPC64LEVM]) (by simp [mkPPC64LEVM])
    · exact snap_not_in_buildArgs _ _ hS (snap_not_in_common_s390x _ _)
        (by simp [mkS390XVM]) (by simp [mkS390XVM, s390xNonGraphicalDisplayArgs])

/-- Witness for C2, at the spec scenario configuration and its write-mode
twin. -/
theorem snapshot_default_law_witness :
    (buildArgs (vmFor scenarioCfg) (mkX86_64VM (vmFor scenarioCfg) probeEnv) =
      commonArgs (vmFor scenarioCfg) (mkX86_64VM (vmFor scenarioCfg) probeEnv)
        ++ (mkX86_64VM (vmFor scenarioCfg) probeEnv).getNonGraphicalDisplayArgs
        ++ ["-snapshot"]
        ++ monitorArgs (vmFor scenarioCfg)
            (commonArgs (vmFor scenarioCfg) (mkX86_64VM (vmFor scenarioCfg) probeEnv)
              ++ (mkX86_64VM (vmFor scenarioCfg) probeEnv).getNonGraphicalDisplayArgs
              ++ ["-snapshot"])) ∧
    "-snapshot" ∉ buildArgs (vmFor { scenarioCfg with writeMode := true })
      (mkS390XVM (vmFor { scenarioCfg with writeMode := true }) probeEnv) :=
  ⟨(snapshot_default_law scenarioCfg probeEnv).1 rfl rfl _,
   ((snapshot_default_law { scenarioCfg with writeMode := true } probeEnv).2 rfl).2.2.2⟩

theorem no_mon_stdio_ppc (v : BaseVM) (e : Env) (hg : v.Graphical = true) :
    hasAdjPair "-monitor" "stdio" (buildArgs v (mkPPC64LEVM v e)) = false := by
  rw [buildArgs_decomp]
  by_cases hm : v.MonitorPort > 0 <;>
    simp [commonArgs, displayArgs, monitorArgs, mkPPC64LEVM, hg, hm, hasAdjPair,
      telnetMonitorSpec, telnet_ne_stdio]

theorem no_mon_stdio_s390x (v : BaseVM) (e : Env) (hg : v.Graphical = true) :
    hasAdjPair "-monitor" "stdio" (buildArgs v (mkS390XVM v e)) = false := by
  rw [buildArgs_decomp]
  by_cases hm : v.MonitorPort > 0 <;>
    simp [commonArgs, displayArgs, monitorArgs, mkS390XVM, hg, hm, hasAdjPair,
      telnetMonitorSpec, telnet_ne_stdio]

/-- C3: in graphical mode against the two variants whose graphical path is
a nographic serial fallback (ppc64le and s390x), the fallback is detected
and the builder appends the pair -monitor none right after the graphical
arguments, and the built list never contains -monitor immediately
followed by stdio, so an interactive stdio monitor is never requested
alongside the stdio serial console. -/
theorem monitor_stdio_exclusivity (cfg : VMConfig) (env : Env)
    (hg : cfg.graphical = true) :
    ("-nographic" ∈ (mkPPC64LEVM (vmFor cfg) env).getGraphicalArgs ∧
      displayArgs (vmFor cfg) (mkPPC64LEVM (vmFor cfg) env) =
        (mkPPC64LEVM (vmFor cfg) env).getGraphicalArgs ++ ["-monitor", "none"] ∧
      hasAdjPair "-monitor" "stdio"
        (buildArgs (vmFor cfg) (mkPPC64LEVM (vmFor cfg) env)) = false) ∧
    ("-nographic" ∈ (mkS390XVM (vmFor cfg) env).getGraphicalArgs ∧
      displayArgs (vmFor cfg) (mkS390XVM (vmFor cfg) env) =
        (mkS390XVM (vmFor cfg) env).getGraphicalArgs ++ ["-monitor", "none"] ∧
      hasAdjPair "-monitor" "stdio"
        (buildArgs (vmFor cfg) (mkS390XVM (vmFor cfg) env)) = false) := by
  have hG : (vmFor cfg).Graphical = true := hg
  refine ⟨⟨by simp [mkPPC64LEVM], ?_, no_mon_stdio_ppc _ _ hG⟩,
          ⟨by simp [mkS390XVM], ?_, no_mon_stdio_s390x _ _ hG⟩⟩
  · exact displayArgs_graphical_fallback _ _ hG (by simp [mkPPC64LEVM])
  · exact displayArgs_graphical_fallback _ _ hG (by simp [mkS390XVM])

/-- Witness for C3, at the spec scenario configuration switched to
graphical mode. -/
theorem monitor_stdio_exclusivity_witness :
    displayArgs (vmFor { scenarioCfg with graphical := true })
        (mkS390XVM (vmFor { scenarioCfg with graphical := true }) probeEnv) =
      (mkS390XVM (vmFor { scenarioCfg with graphical := true }) probeEnv).getGraphicalArgs
        ++ ["-monitor", "none"] ∧
    hasAdjPair "-monitor" "stdio"
      (buildArgs (vmFor { scenarioCfg with graphical := true })
        (mkPPC64LEVM (vmFor { scenarioCfg with graphical := true }) probeEnv)) = false :=
  ⟨((monitor_stdio_exclusivity { scenarioCfg with graphical := true } probeEnv rfl).2).2.1,
   ((monitor_stdio_exclusivity { scenarioCfg with graphical := true } probeEnv rfl).1).2.2⟩

/-- C4: whenever a monitor port is configured, the telnet monitor
specification bound to 127.0.0.1 and that port is appended for every
variant; with the monitor port disabled and graphical mode off, each of
the four variants instead gets -monitor none appended by the monitor
step, which first checks that no -monitor argument is present yet; and
for port 4444 the specification reads exactly
telnet:127.0.0.1:4444,server,nowait. -/
theorem monitor_port_configuration (cfg : VMConfig) (env : Env) :
    (cfg.monitorPort > 0 → ∀ vm : GoVM, ∃ l,
      buildArgs (vmFor cfg) vm = l ++ ["-monitor", telnetMonitorSpec cfg.monitorPort]) ∧
    (cfg.monitorPort = 0 → cfg.graphical = false →
      (buildArgs (vmFor cfg) (mkX86_64VM (vmFor cfg) env) =
        commonArgs (vmFor cfg) (mkX86_64VM (vmFor cfg) env)
          ++ displayArgs (vmFor cfg) (mkX86_64VM (vmFor cfg) env)
          ++ ["-monitor", "none"]) ∧
      (buildArgs (vmFor cfg) (mkAARCH64VM (vmFor cfg) env) =
        commonArgs (vmFor cfg) (mkAARCH64VM (vmFor cfg) env)
          ++ displayArgs (vmFor cfg) (mkAARCH64VM (vmFor cfg) env)
          ++ ["-monitor", "none"]) ∧
      (buildArgs (vmFor cfg) (mkPPC64LEVM (vmFor cfg) env) =
        commonArgs (vmFor cfg) (mkPPC64LEVM (vmFor cfg) env)
          ++ displayArgs (vmFor cfg) (mkPPC64LEVM (vmFor cfg) env)
          ++ ["-monitor", "none"]) ∧
      (buildArgs (vmFor cfg) (mkS390XVM (vmFor cfg) env) =
        commonArgs (vmFor cfg) (mkS390XVM (vmFor cfg) env)
          ++ displayArgs (vmFor cfg) (mkS390XVM (vmFor cfg) env)
          ++ ["-monitor", "none"])) ∧
    telnetMonitorSpec 4444 = "telnet:127.0.0.1:4444,server,nowait" := by
  refine ⟨?_, ?_, by decide⟩
  · intro hm vm
    have hM : (vmFor cfg).MonitorPort > 0 := hm
    rw [buildArgs_decomp, monitorArgs_port _ _ hM]
    exact ⟨commonArgs (vmFor cfg) vm ++ displayArgs (vmFor cfg) vm, rfl⟩
  · intro hm hg
    have hM : (vmFor cfg).MonitorPort = 0 := hm
    have hG : (vmFor cfg).Graphical = false := hg
    refine ⟨?_, ?_, ?_, ?_⟩
    · rw [buildArgs_decomp, monitorArgs_disabled _ _ hG hM ?_]
      intro hmem
      rcases List.mem_append.mp hmem with h1 | h2
      · exact mon_not_in_common_x86 _ _ h1
      · exact mon_not_in_display_nongraph _ _ hG (by simp [mkX86_64VM]) h2
    · rw [buildArgs_decomp, monitorArgs_disabled _ _ hG hM ?_]
      intro hmem
      rcases List.mem_append.mp hmem with h1 | h2
      · exact mon_not_in_common_aarch64 _ _ h1
      · exact mon_not_in_display_nongraph _ _ hG (mon_not_in_nongraph_aarch64 _ _) h2
    · rw [buildArgs_decomp, monitorArgs_disabled _ _ hG hM ?_]
      intro hmem
      rcases List.mem_append.mp hmem with h1 | h2
      · exact mon_not_in_common_ppc _ _ h1
      · exact mon_not_in_display_nongraph _ _ hG (by simp [mkPPC64LEVM]) h2
    · rw [buildArgs_decomp, monitorArgs_disabled _ _ hG hM ?_]
      intro hmem
      rcases List.mem_append.mp hmem with h1 | h2
      · exact mon_not_in_common_s390x _ _ h1
      · exact mon_not_in_display_nongraph _ _ hG
          (by simp [mkS390XVM, s390xNonGraphicalDisplayArgs]) h2

/-- Witness for C4, at monitor port 4444 and at the disabled-monitor spec
scenario. -/
theorem monitor_port_configuration_witness :
    (∃ l, buildArgs (vmFor { scenarioCfg with monitorPort := 4444 })
        (mkX86_64VM (vmFor { scenarioCfg with monitorPort := 4444 }) probeEnv) =
      l ++ ["-monitor", telnetMonitorSpec 4444]) ∧
    buildArgs (vmFor scenarioCfg) (mkX86_64VM (vmFor scenarioCfg) probeEnv) =
      commonArgs (vmFor scenarioCfg) (mkX86_64VM (vmFor scenarioCfg) probeEnv)
        ++ displayArgs (vmFor scenarioCfg) (mkX86_64VM (vmFor scenarioCfg) probeEnv)
        ++ ["-monitor", "none"] :=
  ⟨(monitor_port_configuration { scenarioCfg with monitorPort := 4444 } probeEnv).1
      (by decide) _,
   ((monitor_port_configuration scenarioCfg probeEnv).2.1 rfl rfl).1⟩

/-- C10: in graphical mode with a configured monitor port, the two
nographic-fallback variants get both conflicting monitor directives at
once - the suppressing -monitor none followed immediately by the telnet
monitor specification - and for s390x the pair -monitor none additionally
sits inside the variant graphical arguments themselves. -/
theorem conflicting_monitor_directives (cfg : VMConfig) (env : Env)
    (hg : cfg.graphical = true) (hm : cfg.monitorPort > 0) :
    (∃ l, buildArgs (vmFor cfg) (mkPPC64LEVM (vmFor cfg) env) =
      l ++ ["-monitor", "none", "-monitor", telnetMonitorSpec cfg.monitorPort]) ∧
    (∃ l, buildArgs (vmFor cfg) (mkS390XVM (vmFor cfg) env) =
      l ++ ["-monitor", "none", "-monitor", telnetMonitorSpec cfg.monitorPort]) ∧
    hasAdjPair "-monitor" "none"
      (mkS390XVM (vmFor cfg) env).getGraphicalArgs = true := by
  have hG : (vmFor cfg).Graphical = true := hg
  have hM : (vmFor cfg).MonitorPort > 0 := hm
  refine ⟨⟨commonArgs (vmFor cfg) (mkPPC64LEVM (vmFor cfg) env)
            ++ (mkPPC64LEVM (vmFor cfg) env).getGraphicalArgs, ?_⟩,
          ⟨commonArgs (vmFor cfg) (mkS390XVM (vmFor cfg) env)
            ++ (mkS390XVM (vmFor cfg) env).getGraphicalArgs, ?_⟩, rfl⟩
  · rw [buildArgs_decomp, monitorArgs_port _ _ hM,
      displayArgs_graphical_fallback _ _ hG (by simp [mkPPC64LEVM])]
    simp only [List.append_assoc]
    rfl
  · rw [buildArgs_decomp, monitorArgs_port _ _ hM,
      displayArgs_graphical_fallback _ _ hG (by simp [mkS390XVM])]
    simp only [List.append_assoc]
    rfl

/-- Witness for C10, at graphical mode with monitor port 4444. -/
theorem conflicting_monitor_directives_witness :
    ∃ l, buildArgs (vmFor { scenarioCfg with graphical := true, monitorPort := 4444 })
        (mkS390XVM (vmFor { scenarioCfg with graphical := true, monitorPort := 4444 })
          probeEnv) =
      l ++ ["-monitor", "none", "-monitor", telnetMonitorSpec 4444] :=
  (conflicting_monitor_directives { scenarioCfg with graphical := true, monitorPort := 4444 }
    probeEnv rfl (by decide)).2.1

/-! ### Validation (unnamed/part_019 and internal/config/config.go) -/

/-- The error kinds BaseVM.Validate can surface, one per failing check. -/
inductive VMError
  | binaryNotFound (binary : String)
  | sshPortInUse (port : Nat)
  | monitorPortInUse (port : Nat)
  | diskPathNotSet

/-- vm.ValidateQEMUBinary (unnamed/part_019): exec.LookPath through the
environment; the error carries the binary name (the Go message adds
distribution-specific installation instructions). -/
def validateQEMUBinary (env : Env) (binary : String) : Except VMError Unit :=
  if env.binaryFound binary then Except.ok () else .error (.binaryNotFound binary)

/-- vm.IsPortAvailable (unnamed/part_019): a transient bind on
127.0.0.1, through the environment. -/
def isPortAvailable (env : Env) (port : Nat) : Bool := env.portFree port

/-- vm.ValidatePortsAvailable (unnamed/part_019 lines 161-171): SSH port
first, then the monitor port only when it is enabled. -/
def validatePortsAvailable (env : Env) (sshPort monitorPort : Nat) :
    Except VMError Unit :=
  if isPortAvailable env sshPort = false then .error (.sshPortInUse sshPort)
  else if monitorPort > 0 ∧ isPortAvailable env monitorPort = false then
    .error (.monitorPortInUse monitorPort)
  else .ok ()

/-- BaseVM.Validate (unnamed/part_019 lines 174-190): QEMU binary, then
ports, then the disk path emptiness check. -/
def baseValidate (env : Env) (binary : String) (v : BaseVM) : Except VMError Unit :=
  match validateQEMUBinary env binary with
  | .error e => .error e
  | .ok _ =>
    match validatePortsAvailable env v.SSHPort v.MonitorPort with
    | .error e => .error e
    | .ok _ =>
      if v.DiskPath = "" then .error .diskPathNotSet else .ok ()

/-- The error kinds config.VMConfig.Validate can surface. -/
inductive ConfigError
  | cpuOutOfRange (got : Int)
  | ramOutOfRange (got : Int)
  | sshPortTooLow (got : Nat)
  | monitorPortTooLow (got : Nat)
  | diskPathRequired
  | diskImageNotFound (path : String)

/-- config.VMConfig.Validate (internal/config/config.go lines 269-295,
current snapshot): CPU 1..32, RAM 1..128, SSH port at least 1024, monitor
port 0 or at least 1024, disk path set, disk image present on the
filesystem. -/
def configValidate (fileExists : String → Bool) (c : VMConfig) :
    Except ConfigError Unit :=
  if c.cpu < 1 ∨ c.cpu > 32 then .error (.cpuOutOfRange c.cpu)
  else if c.ramGb < 1 ∨ c.ramGb > 128 then .error (.ramOutOfRange c.ramGb)
  else if c.sshPort < 1024 then .error (.sshPortTooLow c.sshPort)
  else if c.monitorPort ≠ 0 ∧ c.monitorPort < 1024 then
    .error (.monitorPortTooLow c.monitorPort)
  else if c.diskPath = "" then .error .diskPathRequired
  else if fileExists c.diskPath = false then .error (.diskImageNotFound c.diskPath)
  else .ok ()

/-- True when configValidate succeeds. -/
def configAccepts (fileExists : String → Bool) (c : VMConfig) : Bool :=
  match configValidate fileExists c with
  | .ok _ => true
  | .error _ => false

/-- vm.SupportedArchitectures (factory). -/
def supportedArchitectures : List String := ["x86_64", "aarch64", "ppc64le", "s390x"]

/-- vm.IsArchSupported (factory). -/
def isArchSupported (arch : String) : Bool := supportedArchitectures.contains arch

/-- vm.CreateVM composed with QEMUBinary of the created implementation:
the fixed architecture-to-binary table. -/
def qemuBinaryFor (arch : String) : Option String :=
  if arch = "x86_64" then some ("qemu-system-x86_64")
  else if arch = "aarch64" then some ("qemu-system-aarch64")
  else if arch = "ppc64le" then some ("qemu-system-ppc64")
  else if arch = "s390x" then some ("qemu-system-s390x")
  else none

/-- An error of the launch-validation pipeline, tagged by the stage that
produced it. -/
inductive PipelineError
  | config (e : ConfigError)
  | port (e : VMError)
  | unsupportedArch (arch : String)
  | vmValidation (e : VMError)

/-- The validation sequence of runQ2BootE (cmd/q2boot/main.go):
config.Validate, then vm.ValidatePortsAvailable, then the architecture
support check, then CreateVM and Configure followed by BaseVM.Validate. -/
def pipelineValidate (env : Env) (cfg : VMConfig) : Except PipelineError Unit :=
  match configValidate env.fileExists cfg with
  | .error e => .error (.config e)
  | .ok _ =>
    match validatePortsAvailable env cfg.sshPort cfg.monitorPort with
    | .error e => .error (.port e)
    | .ok _ =>
      if isArchSupported cfg.arch = false then .error (.unsupportedArch cfg.arch)
      else
        match qemuBinaryFor cfg.arch with
        | none => .error (.unsupportedArch cfg.arch)
        | some binary =>
          match baseValidate env binary (vmFor cfg) with
          | .error e => .error (.vmValidation e)
          | .ok _ => .ok ()

/-! ### Architecture detection (internal/detector/detector.go) -/

/-- A detection failure: either the guard on an empty disk path, or both
methods failed; the second carries the disk path, mirroring the Go error
that names the path and directs the caller to the explicit --arch flag. -/
inductive DetectionError
  | emptyDiskPath
  | undetected (diskPath : String)

/-- detector.SupportedArchitectures (detector.go line 14). -/
def detectorArchitectures : List String := ["x86_64", "aarch64", "ppc64le", "s390x"]

/-- detector.detectByFilename (detector.go lines 38-50): lower-case the
path and return the first supported architecture that appears right
after one of the separators at, dash or underscore. -/
def detectByFilename (diskPath : String) : Option String :=
  let lowerCasePath := toLowerStr diskPath
  detectorArchitectures.find? fun arch =>
    strContains lowerCasePath ("@" ++ arch) || strContains lowerCasePath ("-" ++ arch)
      || strContains lowerCasePath ("_" ++ arch)

/-- Classification of the textual report of virt-cat piped into file
(detector.go lines 98-115): lower-case it and look for an ELF signature
together with an architecture token, in the fixed order of the source. -/
def classifyFileOutput (raw : String) : Option String :=
  let output := toLowerStr raw
  if strContains output ("elf") && strContains output ("aarch64") then
    some ("aarch64")
  else if strContains output ("elf")
      && (strContains output ("powerpc") || strContains output ("ppc64")) then
    some ("ppc64le")
  else if strContains output ("elf")
      && (strContains output ("s390") || strContains output ("s/390")) then
    some ("s390x")
  else if strContains output ("elf") && strContains output ("x86-64") then
    some ("x86_64")
  else none

/-- detector.detectByVirtCat (detector.go lines 52-116): none when
virt-cat is unavailable or either chained process failed (env.virtOutput
is none) or when the report shows no clear ELF architecture. -/
def detectByVirtCat (env : Env) (_diskPath : String) : Option String :=
  env.virtOutput.bind classifyFileOutput

/-- detector.DetectArchitecture (detector.go lines 19-36): guard the empty
path, then guest inspection, then the filename heuristic, else a single
combined failure naming the disk path. -/
def detectArchitecture (env : Env) (diskPath : String) :
    Except DetectionError String :=
  if diskPath = "" then .error .emptyDiskPath
  else
    match detectByVirtCat env diskPath with
    | some arch => .ok arch
    | none =>
      match detectByFilename diskPath with
      | some arch => .ok arch
      | none => .error (.undetected diskPath)

/-! ### Remaining claim theorems -/

/-- An environment in which the first known aarch64 firmware path exists
and os.CreateTemp hands out one fixed variable-store name. -/
def firmwareEnvA : Env :=
  { fileExists := fun s => s == "/usr/share/qemu/aavmf-aarch64-code.bin",
    tempName := some ("/tmp/q2boot-aavmf-vars-1.fd"),
    binaryFound := fun _ => true, portFree := fun _ => true, virtOutput := none }

/-- The same ambient state at a later moment: os.CreateTemp hands out a
different fresh name, as it does on every call. -/
def firmwareEnvB : Env :=
  { firmwareEnvA with tempName := some ("/tmp/q2boot-aavmf-vars-2.fd") }

/-- Counterexample to C5: with the aarch64 firmware image present, two
builds from the identical finalized configuration embed the two different
temporary variable-store names os.CreateTemp produced, so the argument
lists differ. -/
theorem build_determinism_cex :
    buildArgs (vmFor scenarioCfg) (mkAARCH64VM (vmFor scenarioCfg) firmwareEnvA) ≠
      buildArgs (vmFor scenarioCfg) (mkAARCH64VM (vmFor scenarioCfg) firmwareEnvB) := by
  decide

/-- C5 (amended): building the command line is a pure function of the
configuration for the x86_64, ppc64le and s390x variants, whatever the
ambient state; for aarch64 it is pure exactly when no firmware code image
is found, since a found image makes the builder embed a freshly created
temporary variable-store path. -/
theorem build_determinism_pure_variants (v : BaseVM) (e1 e2 : Env) :
    buildArgs v (mkX86_64VM v e1) = buildArgs v (mkX86_64VM v e2) ∧
    buildArgs v (mkPPC64LEVM v e1) = buildArgs v (mkPPC64LEVM v e2) ∧
    buildArgs v (mkS390XVM v e1) = buildArgs v (mkS390XVM v e2) ∧
    (aarch64FirmwarePath e1 = "" → aarch64FirmwarePath e2 = "" →
      buildArgs v (mkAARCH64VM v e1) = buildArgs v (mkAARCH64VM v e2)) := by
  refine ⟨rfl, rfl, rfl, fun h1 h2 => ?_⟩
  unfold mkAARCH64VM
  rw [h1, h2]
  simp [aarch64ArchArgs]

/-- An ambient environment with no firmware image anywhere. -/
def bareEnvA : Env :=
  { fileExists := fun _ => false, tempName := none,
    binaryFound := fun _ => true, portFree := fun _ => true, virtOutput := none }

/-- A second firmware-free environment that differs from the first in its
temporary-file and port state. -/
def bareEnvB : Env :=
  { bareEnvA with tempName := some ("/tmp/other.fd"), portFree := fun _ => false }

/-- Witness for C5 (amended), across two different ambient environments. -/
theorem build_determinism_pure_variants_witness :
    buildArgs (vmFor scenarioCfg) (mkX86_64VM (vmFor scenarioCfg) bareEnvA) =
      buildArgs (vmFor scenarioCfg) (mkX86_64VM (vmFor scenarioCfg) bareEnvB) ∧
    buildArgs (vmFor scenarioCfg) (mkAARCH64VM (vmFor scenarioCfg) bareEnvA) =
      buildArgs (vmFor scenarioCfg) (mkAARCH64VM (vmFor scenarioCfg) bareEnvB) :=
  ⟨(build_determinism_pure_variants (vmFor scenarioCfg) bareEnvA bareEnvB).1,
   (build_determinism_pure_variants (vmFor scenarioCfg) bareEnvA bareEnvB).2.2.2 rfl rfl⟩

/-- C6: DetectArchitecture tries guest inspection first and the filename
heuristic second, first success winning: when guest inspection yields
nothing and the filename carries an architecture token, the
filename-derived architecture is returned; whenever guest inspection
succeeds its result is returned, whatever the filename would say; and
when both methods fail on a non-empty path, the single returned error
carries that disk path. -/
theorem detection_fallback_order (env : Env) (d : String) (hd : d ≠ "") :
    (∀ a, detectByVirtCat env d = none → detectByFilename d = some a →
      detectArchitecture env d = .ok a) ∧
    (∀ a, detectByVirtCat env d = some a → detectArchitecture env d = .ok a) ∧
    (detectByVirtCat env d = none → detectByFilename d = none →
      detectArchitecture env d = .error (.undetected d)) := by
  refine ⟨fun a hv hf => ?_, fun a hv => ?_, fun hv hf => ?_⟩
  · simp [detectArchitecture, hd, hv, hf]
  · simp [detectArchitecture, hd, hv]
  · simp [detectArchitecture, hd, hv, hf]

/-- Witness for C6: a disk name carrying an aarch64 token resolves by
filename when virt-cat is unavailable; the same name resolves to x86_64
when guest inspection reads an x86-64 ELF report (inspection wins over
the disagreeing filename); a token-free name with no inspection yields
the error carrying the path. -/
theorem detection_fallback_order_witness :
    detectArchitecture bareEnvA ("opensuse-leap-aarch64.qcow2") = .ok ("aarch64") ∧
    detectArchitecture
        { bareEnvA with
          virtOutput := some ("ELF 64-bit LSB pie executable, x86-64, version 1") }
        ("opensuse-leap-aarch64.qcow2") = .ok ("x86_64") ∧
    detectArchitecture bareEnvA ("mydisk.qcow2") = .error (.undetected ("mydisk.qcow2")) :=
  ⟨(detection_fallback_order bareEnvA ("opensuse-leap-aarch64.qcow2") (by decide)).1
      ("aarch64") rfl (by decide),
   (detection_fallback_order
      { bareEnvA with
        virtOutput := some ("ELF 64-bit LSB pie executable, x86-64, version 1") }
      ("opensuse-leap-aarch64.qcow2") (by decide)).2.1 ("x86_64") (by decide),
   (detection_fallback_order bareEnvA ("mydisk.qcow2") (by decide)).2.2 rfl (by decide)⟩

/-- Counterexample to C7: BaseVM.Validate never consults the filesystem,
so a configuration whose non-empty disk path does not exist still
validates cleanly - the claimed existence check is not part of this
function (it lives in config.VMConfig.Validate). -/
theorem validate_ignores_disk_existence :
    baseValidate bareEnvA ("qemu-system-x86_64")
        { newBaseVM with DiskPath := "/does/not/exist.img" } = .ok () ∧
    bareEnvA.fileExists ("/does/not/exist.img") = false :=
  ⟨rfl, rfl⟩

/-- C7 (amended): BaseVM.Validate performs its checks in order - QEMU
binary resolvability, then SSH port availability, then monitor port
availability only when a monitor port is set, then disk path
non-emptiness - returning the error of the first failing check and never
aggregating; it consults only the binary-lookup and port state of the
environment, never file existence, so the disk path is checked for
emptiness but not for existence. -/
theorem base_validate_order (env : Env) (binary : String) (v : BaseVM) :
    (baseValidate env binary v =
      if env.binaryFound binary = false then .error (.binaryNotFound binary)
      else if env.portFree v.SSHPort = false then .error (.sshPortInUse v.SSHPort)
      else if v.MonitorPort > 0 ∧ env.portFree v.MonitorPort = false then
        .error (.monitorPortInUse v.MonitorPort)
      else if v.DiskPath = "" then .error .diskPathNotSet
      else .ok ()) ∧
    (∀ fs, baseValidate { env with fileExists := fs } binary v =
      baseValidate env binary v) := by
  constructor
  · unfold baseValidate validateQEMUBinary validatePortsAvailable isPortAvailable
    by_cases h1 : env.binaryFound binary
    · by_cases h2 : env.portFree v.SSHPort
      · by_cases h3 : 0 < v.MonitorPort ∧ env.portFree v.MonitorPort = false
        · simp [h1, h2, h3]
        · simp [h1, h2, h3]
      · simp [h1, h2]
    · simp [h1]
  · intro fs
    rfl

/-- A hostile ambient environment: no binary resolvable, no port free. -/
def hostileEnv : Env :=
  { fileExists := fun _ => false, tempName := none,
    binaryFound := fun _ => false, portFree := fun _ => false, virtOutput := none }

/-- C8: in the launch pipeline, a configuration with an empty disk path
and in-range numeric fields is rejected with the required-disk-path
configuration error before any binary lookup or port-availability check
can run, whatever their outcome would be. -/
theorem empty_disk_reported_first (cfg : VMConfig) (env : Env)
    (hd : cfg.diskPath = "") (hcpu1 : 1 ≤ cfg.cpu) (hcpu2 : cfg.cpu ≤ 32)
    (hram1 : 1 ≤ cfg.ramGb) (hram2 : cfg.ramGb ≤ 128)
    (hssh : 1024 ≤ cfg.sshPort)
    (hmon : cfg.monitorPort = 0 ∨ 1024 ≤ cfg.monitorPort) :
    pipelineValidate env cfg = .error (.config .diskPathRequired) := by
  have h1 : ¬(cfg.cpu < 1 ∨ cfg.cpu > 32) := by omega
  have h2 : ¬(cfg.ramGb < 1 ∨ cfg.ramGb > 128) := by omega
  have h3 : ¬(cfg.sshPort < 1024) := by omega
  have h4 : ¬(cfg.monitorPort ≠ 0 ∧ cfg.monitorPort < 1024) := by
    rcases hmon with h | h <;> omega
  simp only [pipelineValidate, configValidate, if_neg h1, if_neg h2, if_neg h3,
    if_neg h4, if_pos hd]

/-- Witness for C8: the empty disk path of an otherwise default
configuration is reported even in an environment where the QEMU binary is
missing and every port is already bound. -/
theorem empty_disk_reported_first_witness :
    pipelineValidate hostileEnv { scenarioCfg with diskPath := "" } =
      .error (.config .diskPathRequired) ∧
    hostileEnv.binaryFound ("qemu-system-x86_64") = false ∧
    hostileEnv.portFree 2222 = false :=
  ⟨empty_disk_reported_first { scenarioCfg with diskPath := "" } hostileEnv rfl
      (by decide) (by decide) (by decide) (by decide) (by decide) (Or.inl rfl),
   rfl, rfl⟩

/-- C9: config.VMConfig.Validate accepts and rejects exactly the boundary
values the spec lists - CPU 0 rejected, 1 and 32 accepted, 33 rejected;
RAM 0 rejected, 1 and 128 accepted, 129 rejected; SSH port 1023 rejected,
1024 and 65535 accepted - with the filesystem reporting the disk image
present and no port-availability input existing at all in this check. -/
theorem range_validation_boundaries :
    configAccepts (fun _ => true) { scenarioCfg with cpu := 0, ramGb := 4 } = false ∧
    configAccepts (fun _ => true) { scenarioCfg with cpu := 1, ramGb := 4 } = true ∧
    configAccepts (fun _ => true) { scenarioCfg with cpu := 32, ramGb := 4 } = true ∧
    configAccepts (fun _ => true) { scenarioCfg with cpu := 33, ramGb := 4 } = false ∧
    configAccepts (fun _ => true) { scenarioCfg with ramGb := 0 } = false ∧
    configAccepts (fun _ => true) { scenarioCfg with ramGb := 1 } = true ∧
    configAccepts (fun _ => true) { scenarioCfg with ramGb := 128 } = true ∧
    configAccepts (fun _ => true) { scenarioCfg with ramGb := 129 } = false ∧
    configAccepts (fun _ => true) { scenarioCfg with sshPort := 1023 } = false ∧
    configAccepts (fun _ => true) { scenarioCfg with sshPort := 1024 } = true ∧
    configAccepts (fun _ => true) { scenarioCfg with sshPort := 65535 } = true := by
  decide

end Q2Boot
